import Mathlib

/-!
Verification of the cost-manager persistence and reporting engine.

The source is JavaScript (`vanilla-idb/idb.js`, `src/lib/idb.js`,
`src/components/Charts.jsx`, `server.js`).  JavaScript numbers are embedded
as `JSNum`: a rational for every finite value, plus the special values
`NaN`, `+Infinity` and `-Infinity` that JavaScript arithmetic produces on a
missing rate (property lookup yields `undefined`, which behaves as `NaN` in
arithmetic) or on division by zero.  `Math.round` is embedded as
`fun q => Rat.floor (q + 1/2)` (round half toward positive infinity), which
is exactly JavaScript's `Math.round` on finite values.

Rational arithmetic is spelled through the kernel-computable wrappers
`ratAdd`, `ratMul`, `ratDiv` (proved below to agree with `+`, `*`, `/` on
`ℚ`), so that every definition evaluates on concrete inputs by `decide`.

Asynchronous, fallible operations (the rate fetch, the report build) are
embedded as `Except JsError`-valued functions: a rejected promise is the
`Except.error` case.  The IndexedDB store is embedded as the list of stored
records; the `yearMonth` index lookup `getAll(IDBKeyRange.only([y, m]))` is
the filter on equal `(year, month)`.
-/

/-- Kernel-computable rational addition (agrees with `+` on `ℚ`,
see `ratAdd_eq`). -/
def ratAdd (a b : ℚ) : ℚ := mkRat (a.num * b.den + b.num * a.den) (a.den * b.den)

/-- Kernel-computable rational multiplication (agrees with `*` on `ℚ`,
see `ratMul_eq`). -/
def ratMul (a b : ℚ) : ℚ := mkRat (a.num * b.num) (a.den * b.den)

/-- Kernel-computable rational division (agrees with `/` on `ℚ`,
see `ratDiv_eq`; division by zero gives `0`, but every use below guards the
zero divisor case separately, mirroring JavaScript's `Infinity`/`NaN`). -/
def ratDiv (a b : ℚ) : ℚ := Rat.divInt (a.num * b.den) (a.den * b.num)

theorem ratAdd_eq (a b : ℚ) : ratAdd a b = a + b := by
  unfold ratAdd
  rw [Rat.mkRat_eq_div, Rat.add_def, Rat.normalize_eq_mkRat (by positivity),
    Rat.mkRat_eq_div]

theorem ratMul_eq (a b : ℚ) : ratMul a b = a * b := by
  unfold ratMul
  rw [Rat.mkRat_eq_div, Rat.mul_def, Rat.normalize_eq_mkRat (by positivity),
    Rat.mkRat_eq_div]

theorem ratDiv_eq (a b : ℚ) : ratDiv a b = a / b := by
  conv_rhs => rw [div_eq_mul_inv, Rat.inv_def', ← Rat.num_divInt_den a,
    Rat.divInt_mul_divInt']
  rfl

/-- Embedding of a JavaScript number: a finite rational, or one of the
three special values NaN, +Infinity, -Infinity. -/
inductive JSNum where
  | num : ℚ → JSNum
  | nan : JSNum
  | posInf : JSNum
  | negInf : JSNum
deriving DecidableEq

/-- JavaScript addition (`+`) on numbers: NaN absorbs; opposite infinities
give NaN; an infinity plus a finite value keeps the infinity. -/
def jsAdd : JSNum → JSNum → JSNum
  | JSNum.nan, _ => JSNum.nan
  | _, JSNum.nan => JSNum.nan
  | JSNum.num a, JSNum.num b => JSNum.num (ratAdd a b)
  | JSNum.num _, JSNum.posInf => JSNum.posInf
  | JSNum.num _, JSNum.negInf => JSNum.negInf
  | JSNum.posInf, JSNum.num _ => JSNum.posInf
  | JSNum.negInf, JSNum.num _ => JSNum.negInf
  | JSNum.posInf, JSNum.posInf => JSNum.posInf
  | JSNum.negInf, JSNum.negInf => JSNum.negInf
  | JSNum.posInf, JSNum.negInf => JSNum.nan
  | JSNum.negInf, JSNum.posInf => JSNum.nan

/-- JavaScript multiplication (`*`): NaN absorbs; zero times an infinity is
NaN; otherwise infinities follow the sign rule. -/
def jsMul : JSNum → JSNum → JSNum
  | JSNum.nan, _ => JSNum.nan
  | _, JSNum.nan => JSNum.nan
  | JSNum.num a, JSNum.num b => JSNum.num (ratMul a b)
  | JSNum.num a, JSNum.posInf =>
      if 0 < a then JSNum.posInf else if a < 0 then JSNum.negInf else JSNum.nan
  | JSNum.num a, JSNum.negInf =>
      if 0 < a then JSNum.negInf else if a < 0 then JSNum.posInf else JSNum.nan
  | JSNum.posInf, JSNum.num b =>
      if 0 < b then JSNum.posInf else if b < 0 then JSNum.negInf else JSNum.nan
  | JSNum.negInf, JSNum.num b =>
      if 0 < b then JSNum.negInf else if b < 0 then JSNum.posInf else JSNum.nan
  | JSNum.posInf, JSNum.posInf => JSNum.posInf
  | JSNum.posInf, JSNum.negInf => JSNum.negInf
  | JSNum.negInf, JSNum.posInf => JSNum.negInf
  | JSNum.negInf, JSNum.negInf => JSNum.posInf

/-- JavaScript division (`/`): NaN absorbs; a positive finite value divided
by zero is +Infinity (the embedding has no signed zero, so zero here is the
JavaScript +0), zero by zero is NaN; a finite value over an infinity is 0;
an infinity over an infinity is NaN. -/
def jsDiv : JSNum → JSNum → JSNum
  | JSNum.nan, _ => JSNum.nan
  | _, JSNum.nan => JSNum.nan
  | JSNum.num a, JSNum.num b =>
      if b = 0 then
        (if 0 < a then JSNum.posInf else if a < 0 then JSNum.negInf else JSNum.nan)
      else JSNum.num (ratDiv a b)
  | JSNum.num _, JSNum.posInf => JSNum.num 0
  | JSNum.num _, JSNum.negInf => JSNum.num 0
  | JSNum.posInf, JSNum.num b => if 0 ≤ b then JSNum.posInf else JSNum.negInf
  | JSNum.negInf, JSNum.num b => if 0 ≤ b then JSNum.negInf else JSNum.posInf
  | JSNum.posInf, JSNum.posInf => JSNum.nan
  | JSNum.posInf, JSNum.negInf => JSNum.nan
  | JSNum.negInf, JSNum.posInf => JSNum.nan
  | JSNum.negInf, JSNum.negInf => JSNum.nan

/-- JavaScript `Math.round`: half rounds toward +Infinity on finite values;
NaN and the infinities pass through unchanged. -/
def jsRound : JSNum → JSNum
  | JSNum.num q => JSNum.num ((Rat.floor (ratAdd q (mkRat 1 2)) : ℤ) : ℚ)
  | JSNum.nan => JSNum.nan
  | JSNum.posInf => JSNum.posInf
  | JSNum.negInf => JSNum.negInf

/-- The `Math.round(x * 100) / 100` idiom the source uses everywhere it
rounds to two decimal places. -/
def jsRound2 (x : JSNum) : JSNum :=
  jsDiv (jsRound (jsMul x (JSNum.num 100))) (JSNum.num 100)

/-- A rate table as parsed from the rates JSON: an object mapping currency
code to numeric rate, embedded as an association list. -/
def RateTable : Type := List (String × ℚ)

/-- JavaScript property lookup `rates[code]` on the rate-table object:
first binding wins, a missing key yields `undefined` (embedded `none`). -/
def rateLookup : RateTable → String → Option ℚ
  | [], _ => none
  | (k, v) :: rest, c => if k = c then some v else rateLookup rest c

/-- Coercion of a property-lookup result into arithmetic: `undefined` used
as a number behaves as NaN in every JavaScript arithmetic operator. -/
def jsOfOpt : Option ℚ → JSNum
  | some q => JSNum.num q
  | none => JSNum.nan

/-- Embeds `convertAmount` (vanilla-idb/idb.js lines 47-50, identical
arithmetic in src/lib/idb.js lines 188-190 and Charts.jsx lines 62-65):
`var usd = amount / rates[from]; return Math.round(usd * rates[to] * 100) / 100;`.
There is no guard of any kind in the source: missing codes and zero rates
flow through the arithmetic. -/
def convertAmount (amount : ℚ) (fromCode toCode : String) (rates : RateTable) : JSNum :=
  let usd := jsDiv (JSNum.num amount) (jsOfOpt (rateLookup rates fromCode))
  jsDiv (jsRound (jsMul (jsMul usd (jsOfOpt (rateLookup rates toCode))) (JSNum.num 100)))
    (JSNum.num 100)

/-- Modelled from the spec: the unrounded two-step conversion
`normalized = amount / rateTable[fromCode]; result = normalized * rateTable[toCode]`
of spec section 4.2, before any rounding.  Used to compare the code's
accumulation against the spec's round-only-the-final-total policy. -/
def convertRawSpec (amount : ℚ) (fromCode toCode : String) (rates : RateTable) : JSNum :=
  jsMul (jsDiv (JSNum.num amount) (jsOfOpt (rateLookup rates fromCode)))
    (jsOfOpt (rateLookup rates toCode))

/-- The rate table served by server.js lines 20-27:
`{ USD: 1, GBP: 0.6, EURO: 0.7, ILS: 3.4 }`. -/
def specRates : RateTable :=
  [(("USD"), 1), (("GBP"), mkRat 3 5), (("EURO"), mkRat 7 10), (("ILS"), mkRat 17 5)]

/-- The submitted cost payload `{sum, currency, category, description}`
passed into `addCost`. -/
structure CostInput where
  sum : ℚ
  currency : String
  category : String
  description : String
deriving DecidableEq

/-- The components of the wall-clock date read from `new Date()` inside
`addCost`: `getFullYear()`, `getMonth() + 1`, `getDate()`. -/
structure NowDate where
  year : ℤ
  month : ℤ
  day : ℤ
deriving DecidableEq

/-- The nested `{ day: ... }` object stored and reported under the
property named `Date`. -/
structure DateObj where
  day : ℤ
deriving DecidableEq

/-- A record as it sits in the IndexedDB `costs` store: the item built in
`addCost` (vanilla-idb/idb.js lines 92-102, src/lib/idb.js lines 226-234)
plus the auto-increment key the store writes under the `id` keyPath. -/
structure StoredCost where
  id : ℤ
  sum : ℚ
  currency : String
  category : String
  description : String
  year : ℤ
  month : ℤ
  day : ℤ
  Date : DateObj
deriving DecidableEq

/-- The record persisted for a submitted cost: `addCost` captures
`year`, `month`, `day` and `Date: { day }` from the current date
(vanilla-idb/idb.js lines 92-102; the React version builds the identical
item at src/lib/idb.js lines 226-234); the store assigns the
auto-increment `id`. -/
def mkStoredCost (cost : CostInput) (now : NowDate) (assignedId : ℤ) : StoredCost :=
  { id := assignedId
    sum := cost.sum
    currency := cost.currency
    category := cost.category
    description := cost.description
    year := now.year
    month := now.month
    day := now.day
    Date := { day := now.day } }

/-- The value an `addCost` promise resolves with, as a JavaScript object:
`Option` fields embed properties that may be absent (`none` = reading the
property yields `undefined`). -/
structure AddCostResolved where
  sum : ℚ
  currency : String
  category : String
  description : String
  id : Option ℤ
  year : Option ℤ
  month : Option ℤ
  day : Option ℤ
  Date : DateObj
deriving DecidableEq

/-- Embeds the resolution value of `addCost` in vanilla-idb/idb.js lines
104-111: `resolve({sum: item.sum, currency: item.currency, category:
item.category, description: item.description, Date: {day: item.day}})`.
The object literal has no `id`, `year`, `month` or `day` property; the
auto-increment key assigned by `store.add` is written into the stored
clone only, never into this object. -/
def vanillaAddCostResolved (cost : CostInput) (now : NowDate) : AddCostResolved :=
  { sum := cost.sum
    currency := cost.currency
    category := cost.category
    description := cost.description
    id := none
    year := none
    month := none
    day := none
    Date := { day := now.day } }

/-- Embeds the resolution value of `addCost` in src/lib/idb.js lines
221-243: `req.onsuccess = () => resolve(item)` where `item = {...cost,
year, month, day, Date: {day}}`.  The in-memory `item` carries the date
fields but not the auto-increment key: `store.add(item)` injects the key
into the structured clone it stores, not into `item`. -/
def reactAddCostResolved (cost : CostInput) (now : NowDate) : AddCostResolved :=
  { sum := cost.sum
    currency := cost.currency
    category := cost.category
    description := cost.description
    id := none
    year := some now.year
    month := some now.month
    day := some now.day
    Date := { day := now.day } }

/-- The `yearMonth` index lookup `idx.getAll(IDBKeyRange.only([year,
month]))` (vanilla-idb/idb.js line 134, src/lib/idb.js line 252): exactly
the stored records whose `(year, month)` equals the key, in key order. -/
def queryByMonth (store : List StoredCost) (year month : ℤ) : List StoredCost :=
  store.filter (fun c => c.year == year && c.month == month)

/-- A JavaScript error value carried by a rejected promise. -/
inductive JsError where
  | jsError (msg : String)
  | networkFailure
deriving DecidableEq

/-- An HTTP response as seen by `fetchRates`: the `ok` flag and the
already-parsed JSON body. -/
structure HttpResponse where
  ok : Bool
  body : RateTable

/-- Embeds `fetchRates` (vanilla-idb/idb.js lines 36-43, src/lib/idb.js
lines 175-179): a network-level fetch rejection (`none`) propagates; a
response with `ok` false rejects with
`new Error("Failed to fetch exchange rates")`; otherwise the parsed JSON
body is the rate table.  (The React copy uses the message
"Failed to fetch rates"; the vanilla message is used here.) -/
def fetchRates : Option HttpResponse → Except JsError RateTable
  | none => Except.error JsError.networkFailure
  | some res =>
      if res.ok then Except.ok res.body
      else Except.error (JsError.jsError ("Failed to fetch exchange rates"))

/-- The per-item view `getReport` returns in its `costs` array
(vanilla-idb/idb.js lines 146-154): original `sum` and `currency`
unchanged, plus `Date: { day: c.day }`. -/
structure CostView where
  sum : ℚ
  currency : String
  category : String
  description : String
  Date : DateObj
deriving DecidableEq

/-- The `total` object of a monthly report: `{currency, total}`. -/
structure TotalView where
  currency : String
  total : JSNum
deriving DecidableEq

/-- The value a `getReport` promise resolves with
(vanilla-idb/idb.js lines 140-156). -/
structure Report where
  year : ℤ
  month : ℤ
  costs : List CostView
  total : TotalView
deriving DecidableEq

/-- Decidable equality on promise outcomes, so that concrete report
results can be checked by `decide`. -/
instance exceptDecEq {ε α : Type} [DecidableEq ε] [DecidableEq α] :
    DecidableEq (Except ε α) := fun x y =>
  match x, y with
  | Except.ok a, Except.ok b =>
      if h : a = b then Decidable.isTrue (by rw [h])
      else Decidable.isFalse (fun hc => h (Except.ok.inj hc))
  | Except.error a, Except.error b =>
      if h : a = b then Decidable.isTrue (by rw [h])
      else Decidable.isFalse (fun hc => h (Except.error.inj hc))
  | Except.ok _, Except.error _ => Decidable.isFalse (fun hc => Except.noConfusion hc)
  | Except.error _, Except.ok _ => Decidable.isFalse (fun hc => Except.noConfusion hc)

/-- Embeds `getReport` (vanilla-idb/idb.js lines 128-164; src/lib/idb.js
lines 246-274 computes the identical total and returns the raw records as
`costs`).  The store read result is the `queryByMonth` filter; the rate
fetch outcome is passed in as `fetchResult`.  On fetch failure the promise
rejects with that error (`.catch(reject)`); on success the total
accumulates `convertAmount` of each item — the already-rounded per-item
value — and the final total is rounded once more by
`Math.round(total * 100) / 100`. -/
def getReport (year month : ℤ) (currency : String) (store : List StoredCost)
    (fetchResult : Except JsError RateTable) : Except JsError Report :=
  let items := queryByMonth store year month
  match fetchResult with
  | Except.error e => Except.error e
  | Except.ok rates =>
      let total := items.foldl
        (fun acc c => jsAdd acc (convertAmount c.sum c.currency currency rates))
        (JSNum.num 0)
      Except.ok
        { year := year
          month := month
          costs := items.map (fun c =>
            { sum := c.sum
              currency := c.currency
              category := c.category
              description := c.description
              Date := { day := c.day } })
          total :=
            { currency := currency
              total := jsDiv (jsRound (jsMul total (JSNum.num 100))) (JSNum.num 100) } }

/-- The grand total of a monthly report whose rate fetch succeeded, read
off the `getReport` result. -/
def reportTotal (year month : ℤ) (currency : String) (store : List StoredCost)
    (rates : RateTable) : JSNum :=
  match getReport year month currency store (Except.ok rates) with
  | Except.ok rep => rep.total.total
  | Except.error _ => JSNum.nan

/-- Modelled from the spec: the grand total as spec section 4.3 step 3
describes it — the 2-decimal rounding of the floating-point sum of the
converted, unrounded amounts, rounding applied only once at the end. -/
def specGrandTotal (year month : ℤ) (currency : String) (store : List StoredCost)
    (rates : RateTable) : JSNum :=
  jsRound2 ((queryByMonth store year month).foldl
    (fun acc c => jsAdd acc (convertRawSpec c.sum c.currency currency rates))
    (JSNum.num 0))

/-- The month sequence of the Charts yearly loop:
`Array.from({length: 12}, (_, i) => i + 1)` (Charts.jsx lines 67-69). -/
def monthsList : List ℤ := (List.range 12).map (fun i => (i : ℤ) + 1)

/-- The body of the Charts yearly-totals loop (Charts.jsx lines 133-139):
for each month in order, await `getReport` and push
`{month: m, total: rep.total.total}`; a rejection anywhere aborts the
whole computation (the surrounding try/catch). -/
def yearlyTotalsLoop (year : ℤ) (currency : String) (store : List StoredCost)
    (fetchResult : Except JsError RateTable) : List ℤ → Except JsError (List (ℤ × JSNum))
  | [] => Except.ok []
  | m :: ms =>
      match getReport year m currency store fetchResult with
      | Except.error e => Except.error e
      | Except.ok rep =>
          match yearlyTotalsLoop year currency store fetchResult ms with
          | Except.error e => Except.error e
          | Except.ok rest => Except.ok ((m, rep.total.total) :: rest)

/-- Embeds the Charts yearly-totals computation (Charts.jsx lines
131-141): one `getReport` invocation per month 1..12, collecting each
returned total.  Each iteration performs its own rate fetch in the source;
the single `fetchResult` parameter embeds the fetch outcome, identical
across the twelve calls within one evaluation. -/
def yearlyTotals (year : ℤ) (currency : String) (store : List StoredCost)
    (fetchResult : Except JsError RateTable) : Except JsError (List (ℤ × JSNum)) :=
  yearlyTotalsLoop year currency store fetchResult monthsList

/-- A rate table whose USD rate is zero, exercising the division-by-zero
path of `convertAmount`. -/
def usdZeroRates : RateTable :=
  [(("USD"), 0), (("GBP"), mkRat 3 5), (("EURO"), mkRat 7 10), (("ILS"), mkRat 17 5)]

/-- A concrete stored cost of 1 GBP used to exhibit the per-addend
rounding of the report total. -/
def gbpItemA : StoredCost :=
  { id := 1, sum := 1, currency := "GBP", category := "Car", description := "a"
    year := 2024, month := 5, day := 3, Date := { day := 3 } }

/-- A second stored cost of 1 GBP in the same month. -/
def gbpItemB : StoredCost :=
  { id := 2, sum := 1, currency := "GBP", category := "Food", description := "b"
    year := 2024, month := 5, day := 4, Date := { day := 4 } }

/-- A concrete submitted cost payload. -/
def sampleCost : CostInput :=
  { sum := 100, currency := "USD", category := "Food", description := "x" }

/-- A concrete insertion date. -/
def sampleNow : NowDate := { year := 2025, month := 1, day := 15 }

/-- A concrete stored cost lying in month 3 of 2025, for the
single-month yearly-totals scenario. -/
def marchItem : StoredCost :=
  { id := 1, sum := 10, currency := "USD", category := "Food", description := "m"
    year := 2025, month := 3, day := 2, Date := { day := 2 } }

theorem jsMul_nan_left (x : JSNum) : jsMul JSNum.nan x = JSNum.nan := by
  cases x <;> rfl

theorem jsMul_nan_right (x : JSNum) : jsMul x JSNum.nan = JSNum.nan := by
  cases x <;> rfl

theorem jsDiv_nan_left (x : JSNum) : jsDiv JSNum.nan x = JSNum.nan := by
  cases x <;> rfl

theorem jsDiv_nan_right (x : JSNum) : jsDiv x JSNum.nan = JSNum.nan := by
  cases x <;> rfl

theorem queryByMonth_eq_nil (store : List StoredCost) (year month : ℤ)
    (h : ∀ c ∈ store, ¬(c.year = year ∧ c.month = month)) :
    queryByMonth store year month = [] := by
  unfold queryByMonth
  rw [List.filter_eq_nil_iff]
  intro c hc
  simpa using h c hc

theorem jsRound2_num_zero :
    jsDiv (jsRound (jsMul (JSNum.num 0) (JSNum.num 100))) (JSNum.num 100) = JSNum.num 0 := by
  decide

/-- C6: with the rate table {USD:1, GBP:0.6, EURO:0.7, ILS:3.4},
`convert(100, "USD", "ILS", rates)` returns exactly 340.00 and
`convert(340, "ILS", "USD", rates)` returns exactly 100.00; the round
trip agrees (here exactly, hence within the 0.01 tolerance). -/
theorem convertAmount_round_trip :
    convertAmount 100 ("USD") ("ILS") specRates = JSNum.num 340 ∧
    convertAmount 340 ("ILS") ("USD") specRates = JSNum.num 100 := by
  decide

/-- C2 counterexample: `convert(10, "USD", "XYZ", rates)` does not fail —
it evaluates to the numeric value NaN (`rates["XYZ"]` is `undefined` and
the unguarded arithmetic yields NaN), refuting the claim that a missing
code fails with UnknownCurrencyError. -/
theorem convertAmount_unknown_currency_cex :
    convertAmount 10 ("USD") ("XYZ") specRates = JSNum.nan := by
  decide

/-- C2 (amended): for every amount and rate table, if `fromCode` or
`toCode` is absent from the rate table, `convertAmount` raises no error
and returns NaN: the missing lookup yields `undefined`, which propagates
as NaN through the division, multiplications and `Math.round`. -/
theorem convertAmount_missing_code_nan (amount : ℚ) (fromCode toCode : String)
    (rates : RateTable)
    (h : rateLookup rates fromCode = none ∨ rateLookup rates toCode = none) :
    convertAmount amount fromCode toCode rates = JSNum.nan := by
  rcases h with h | h <;>
    simp [convertAmount, h, jsOfOpt, jsMul_nan_left, jsMul_nan_right,
      jsDiv_nan_left, jsDiv_nan_right, jsRound]

theorem convertAmount_missing_code_nan_witness :
    convertAmount 7 ("ABC") ("ILS") specRates = JSNum.nan :=
  convertAmount_missing_code_nan 7 ("ABC") ("ILS") specRates (Or.inl (by decide))

/-- C4 counterexample: with a rate table whose USD rate is 0,
`convert(10, "USD", "ILS", rates)` evaluates to +Infinity — the division
by zero is neither caught nor turned into an InvalidRateError, refuting
the claim. -/
theorem convertAmount_zero_rate_cex :
    convertAmount 10 ("USD") ("ILS") usdZeroRates = JSNum.posInf := by
  decide

/-- C4 (amended): whenever `rateTable[fromCode]` is 0, the amount is
positive and the target code has a positive rate, `convertAmount` raises
no error and returns +Infinity: `amount / 0` is JavaScript +Infinity and
it survives the multiplications, `Math.round` and the final division. -/
theorem convertAmount_zero_rate_posInf (amount : ℚ) (fromCode toCode : String)
    (rates : RateTable) (r : ℚ) (ha : 0 < amount)
    (hf : rateLookup rates fromCode = some 0)
    (ht : rateLookup rates toCode = some r) (hr : 0 < r) :
    convertAmount amount fromCode toCode rates = JSNum.posInf := by
  have h100 : (0 : ℚ) < 100 := by norm_num
  have h100le : (0 : ℚ) ≤ 100 := by norm_num
  simp [convertAmount, hf, ht, jsOfOpt, jsDiv, jsMul, jsRound, ha, hr, h100, h100le]

theorem convertAmount_zero_rate_posInf_witness :
    convertAmount 10 ("USD") ("ILS") usdZeroRates = JSNum.posInf :=
  convertAmount_zero_rate_posInf 10 ("USD") ("ILS") usdZeroRates (mkRat 17 5)
    (by decide) (by decide) (by decide) (by decide)

/-- C9: for every amount and every code present in the rate table with a
non-zero rate, converting a currency to itself returns the amount up to
2-decimal rounding — the result is exactly the `Math.round(x*100)/100`
rounding of the amount — and this falls out of the same two-step
divide-then-multiply arithmetic `convertAmount` applies to every pair
(the definition has no identity special case). -/
theorem convertAmount_identity (amount : ℚ) (c : String) (rates : RateTable)
    (r : ℚ) (hc : rateLookup rates c = some r) (hr : r ≠ 0) :
    convertAmount amount c c rates = jsRound2 (JSNum.num amount) := by
  unfold convertAmount
  rw [hc]
  show jsDiv (jsRound (jsMul (jsMul (jsDiv (JSNum.num amount) (JSNum.num r))
    (JSNum.num r)) (JSNum.num 100))) (JSNum.num 100) = _
  rw [show jsDiv (JSNum.num amount) (JSNum.num r) = JSNum.num (ratDiv amount r) by
    simp [jsDiv, hr]]
  show jsDiv (jsRound (jsMul (JSNum.num (ratMul (ratDiv amount r) r))
    (JSNum.num 100))) (JSNum.num 100) = _
  rw [show ratMul (ratDiv amount r) r = amount by
    rw [ratMul_eq, ratDiv_eq, div_mul_cancel₀ amount hr]]
  rfl

theorem convertAmount_identity_witness :
    convertAmount 5 ("ILS") ("ILS") specRates = jsRound2 (JSNum.num 5) :=
  convertAmount_identity 5 ("ILS") specRates (mkRat 17 5) (by decide) (by decide)

/-- C1 counterexample: two stored costs of 1 GBP each, reported in USD
with the served rates.  Each item converts to 1/0.6 = 1.666...; the code
adds the per-item rounded values 1.67 + 1.67 and returns 3.34, while the
2-decimal rounding of the sum of the unrounded amounts is 3.33 — so the
grand total is not the single rounding of the unrounded sum. -/
theorem report_total_double_rounding_cex :
    reportTotal 2024 5 ("USD") [gbpItemA, gbpItemB] specRates =
      JSNum.num (mkRat 167 50) ∧
    specGrandTotal 2024 5 ("USD") [gbpItemA, gbpItemB] specRates =
      JSNum.num (mkRat 333 100) ∧
    JSNum.num (mkRat 167 50) ≠ JSNum.num (mkRat 333 100) := by
  decide

/-- C1 (amended): the grand total of every monthly report equals the
2-decimal rounding of the sum of the per-item ALREADY-2-decimal-rounded
converted amounts: `convertAmount` rounds each addend before the
accumulation, and the accumulated sum is rounded once more at the end. -/
theorem report_total_rounds_each_addend (year month : ℤ) (currency : String)
    (store : List StoredCost) (rates : RateTable) :
    reportTotal year month currency store rates =
      jsRound2 (((queryByMonth store year month).map
        (fun c => jsRound2 (convertRawSpec c.sum c.currency currency rates))).foldl
          jsAdd (JSNum.num 0)) := by
  rw [List.foldl_map]
  rfl

/-- C3: if the rate fetch fails — the network-level fetch rejects or the
response is non-2xx (`ok` false) — the whole `getReport` call rejects
with exactly that fetch error, and no report object (in particular no
partial report) is ever produced. -/
theorem report_fetch_failure_propagates (year month : ℤ) (currency : String)
    (store : List StoredCost) (net : Option HttpResponse)
    (h : net = none ∨ ∃ res, net = some res ∧ res.ok = false) :
    ∃ e, fetchRates net = Except.error e ∧
      getReport year month currency store (fetchRates net) = Except.error e ∧
      ∀ rep, getReport year month currency store (fetchRates net) ≠ Except.ok rep := by
  rcases h with h | ⟨res, hres, hok⟩
  · subst h
    exact ⟨JsError.networkFailure, rfl, rfl, fun rep hc => Except.noConfusion hc⟩
  · subst hres
    refine ⟨JsError.jsError ("Failed to fetch exchange rates"), ?_, ?_, ?_⟩ <;>
      simp [fetchRates, hok, getReport]

theorem report_fetch_failure_propagates_witness :
    ∃ e, fetchRates (some { ok := false, body := [] }) = Except.error e ∧
      getReport 2025 1 ("USD") []
        (fetchRates (some { ok := false, body := [] })) = Except.error e ∧
      ∀ rep, getReport 2025 1 ("USD") []
        (fetchRates (some { ok := false, body := [] })) ≠ Except.ok rep :=
  report_fetch_failure_propagates 2025 1 ("USD") []
    (some { ok := false, body := [] }) (Or.inr ⟨{ ok := false, body := [] }, rfl, rfl⟩)

/-- C5 counterexample: for a concrete submitted cost and insertion date,
the object `addCost` resolves with has no `id` property in either
version, and the vanilla version has no bare `year` property either —
the promise does not return the fully materialized stored record with
the store-assigned id. -/
theorem addCost_missing_id_cex :
    (vanillaAddCostResolved sampleCost sampleNow).id = none ∧
    (vanillaAddCostResolved sampleCost sampleNow).year = none ∧
    (reactAddCostResolved sampleCost sampleNow).id = none := by
  decide

/-- C5 (amended): `addCost` resolves with an object carrying the
submitted `sum`, `currency`, `category`, `description` and a
`Date: {day}` captured from the current date, but never the
store-assigned `id` (the auto-increment key is written into the stored
clone only); the React version additionally carries the bare `year`,
`month`, `day` fields captured at insertion, the vanilla version does
not.  The stored record itself does carry the assigned `id` and all
three date fields. -/
theorem addCost_resolved_fields (cost : CostInput) (now : NowDate) (k : ℤ) :
    (mkStoredCost cost now k).id = k ∧
    (mkStoredCost cost now k).year = now.year ∧
    (mkStoredCost cost now k).month = now.month ∧
    (mkStoredCost cost now k).day = now.day ∧
    (vanillaAddCostResolved cost now).sum = cost.sum ∧
    (vanillaAddCostResolved cost now).currency = cost.currency ∧
    (vanillaAddCostResolved cost now).category = cost.category ∧
    (vanillaAddCostResolved cost now).description = cost.description ∧
    (vanillaAddCostResolved cost now).Date.day = now.day ∧
    (vanillaAddCostResolved cost now).id = none ∧
    (vanillaAddCostResolved cost now).year = none ∧
    (vanillaAddCostResolved cost now).month = none ∧
    (vanillaAddCostResolved cost now).day = none ∧
    (reactAddCostResolved cost now).id = none ∧
    (reactAddCostResolved cost now).year = some now.year ∧
    (reactAddCostResolved cost now).month = some now.month ∧
    (reactAddCostResolved cost now).day = some now.day ∧
    (reactAddCostResolved cost now).Date.day = now.day :=
  ⟨rfl, rfl, rfl, rfl, rfl, rfl, rfl, rfl, rfl, rfl, rfl, rfl, rfl, rfl, rfl, rfl,
    rfl, rfl⟩

/-- C7: a monthly report over a month with zero matching stored items
succeeds (assuming the rate fetch succeeds) and returns empty costs with
total `{currency: X, total: 0}`. -/
theorem empty_month_report (year month : ℤ) (x : String) (store : List StoredCost)
    (rates : RateTable)
    (h : ∀ c ∈ store, ¬(c.year = year ∧ c.month = month)) :
    getReport year month x store (Except.ok rates) =
      Except.ok
        { year := year, month := month, costs := []
          total := { currency := x, total := JSNum.num 0 } } := by
  have hq := queryByMonth_eq_nil store year month h
  simp [getReport, hq, jsRound2_num_zero]

theorem empty_month_report_witness :
    getReport 2025 1 ("USD") [] (Except.ok specRates) =
      Except.ok
        { year := 2025, month := 1, costs := []
          total := { currency := "USD", total := JSNum.num 0 } } :=
  empty_month_report 2025 1 ("USD") [] specRates (by simp)

/-- C8: the yearly-totals loop produces exactly twelve (month, total)
pairs for months 1..12 in order, each total being the one the monthly
report path returns for that month; when every stored item of the year
lies in a single month m0, every other month's total is 0 (and month
m0's entry is the monthly report total by the first conjunct). -/
theorem yearly_totals_single_month (year : ℤ) (currency : String)
    (store : List StoredCost) (rates : RateTable) (m0 : ℤ)
    (hm : ∀ c ∈ store, c.year = year → c.month = m0) :
    yearlyTotals year currency store (Except.ok rates) =
      Except.ok (monthsList.map
        (fun m => (m, reportTotal year m currency store rates))) ∧
    monthsList = [1, 2, 3, 4, 5, 6, 7, 8, 9, 10, 11, 12] ∧
    (∀ m, m ∈ monthsList → m ≠ m0 →
      reportTotal year m currency store rates = JSNum.num 0) := by
  refine ⟨rfl, by decide, ?_⟩
  intro m _ hne
  have hq : queryByMonth store year m = [] := by
    apply queryByMonth_eq_nil
    intro c hc hcm
    exact hne (hcm.2 ▸ (hm c hc hcm.1).symm ▸ rfl)
  simp [reportTotal, getReport, hq, jsRound2_num_zero]

theorem yearly_totals_single_month_witness :
    yearlyTotals 2025 ("USD") [marchItem] (Except.ok specRates) =
      Except.ok (monthsList.map
        (fun m => (m, reportTotal 2025 m ("USD") [marchItem] specRates))) ∧
    monthsList = [1, 2, 3, 4, 5, 6, 7, 8, 9, 10, 11, 12] ∧
    (∀ m, m ∈ monthsList → m ≠ 3 →
      reportTotal 2025 m ("USD") [marchItem] specRates = JSNum.num 0) :=
  yearly_totals_single_month 2025 ("USD") [marchItem] specRates 3 (by decide)

/-- C10: every record persisted by `addCost` stores, besides `year`,
`month` and `day`, a `Date` field equal to `{day: d}` with `d` the
record's own `day`; and every line item a monthly report returns exposes
that same `Date.day`, equal to the stored record's `day`. -/
theorem stored_and_reported_date_day (cost : CostInput) (now : NowDate)
    (k year month : ℤ) (currency : String) (store : List StoredCost)
    (rates : RateTable) :
    (mkStoredCost cost now k).Date = { day := (mkStoredCost cost now k).day } ∧
    ∃ rep, getReport year month currency store (Except.ok rates) = Except.ok rep ∧
      rep.costs.map (fun v => v.Date.day) =
        (queryByMonth store year month).map (fun c => c.day) := by
  refine ⟨rfl, _, rfl, ?_⟩
  rw [List.map_map]
  rfl
